import Mathlib

/-!
Shallow embedding of `src/newsstand.py`, a feed-polling news watcher:
it polls RSS/Atom feeds, deduplicates entries against a persisted
"seen" ledger, matches entry text against per-topic pattern banks,
canonicalizes aggregator redirect links, and posts notifications to a
Slack sink and/or a generic webhook sink.

External collaborators (feedparser, the `re` module's compiled
patterns, the Google News decoder, and HTTP transports) are modelled
as black boxes: a compiled pattern is a search predicate
`String → Bool`, the decoder is a function into an outcome type, and
each sink delivery is an externally determined Boolean outcome.
Machine-level details (logging, sleeping) are dropped; control flow,
state updates and data transformations follow the Python line by line.
-/

namespace Newsstand

/-- A compiled regular-expression pattern, abstracted to its `search`
behaviour on a text: `p text = true` iff the pattern finds a match
anywhere in `text`.  (`re.compile(p, re.I)` is external library code;
case-insensitivity is internal to the black box.) -/
abbrev Pattern := String → Bool

/-- A feed entry as seen through `entry.get(...)`: every field access
in the Python goes through `.get` with a default, so each field is
optional.  Timestamps are the epoch-seconds value that
`calendar.timegm(entry.get("published_parsed"))` would produce. -/
structure Entry where
  id : Option String
  link : Option String
  title : Option String
  summary : Option String
  published_parsed : Option Int
  updated_parsed : Option Int
deriving DecidableEq

/-- Python `a or b` on two optional strings: `None` and `""` are
falsy, so the left value is kept only when it is a non-empty string.
This is the semantics of `entry.get("id") or entry.get("link")`. -/
def pyOrStr : Option String → Option String → Option String
  | some s, b => if s = "" then b else some s
  | none, b => b

/-- Python truthiness of an optional string: `None` and `""` are
falsy, any other string is truthy. -/
def truthyS : Option String → Bool
  | none => false
  | some s => !(s == "")

/-- The deduplication identifier of an entry:
`guid = entry.get("id") or entry.get("link")` (line 228). -/
def entryGuid (e : Entry) : Option String := pyOrStr e.id e.link

/-- Python `needle in hay` substring test on strings. -/
def strContains (hay needle : String) : Bool :=
  decide (needle.data <:+: hay.data)

/-! ### Seen ledger (`load_seen` / `save_seen`, lines 77–86)

The ledger file's parsed content is modelled as the JSON array it
holds: `some l` is a readable file whose JSON array of strings parsed
to `l`; `none` is a missing or unreadable/corrupt file. -/

/-- `load_seen`: read the seen file and build the set of identifiers;
a missing or unreadable file yields the empty set (cold start). -/
def load_seen (file : Option (List String)) : Finset String :=
  match file with
  | some l => l.toFinset
  | none => ∅

/-- `save_seen`: serialize the seen set as a sorted JSON array
(`json.dumps(sorted(seen))`). -/
def save_seen (seen : Finset String) : List String :=
  seen.sort (· ≤ ·)

/-! ### Config provider (`load_config`, lines 88–94, and the
startup/reload call sites, lines 204–215)

The outcome of one `load_config()` call is modelled as
`Except String Config`: `.error` covers an unreadable file, malformed
JSON, or the `ValueError` raised when `feeds` is not a list or
`features` is not an object. -/

structure Config where
  feeds : List String
  features : List (String × List String)
deriving DecidableEq

/-- The orchestrator state that `load_config` feeds: the feed list,
the raw feature bank, and the compiled pattern bank
(`{k: [re.compile(p, re.I) for p in v] for k, v in features.items()}`).
`compile` abstracts `re.compile(·, re.I)`. -/
structure LoopState where
  feeds : List String
  features : List (String × List String)
  feature_patterns : List (String × List Pattern)

/-- Wholesale recompilation of the pattern bank from a raw feature
bank (lines 205 and 213). -/
def compileBank (compile : String → Pattern) (features : List (String × List String)) :
    List (String × List Pattern) :=
  features.map (fun kv => (kv.1, kv.2.map compile))

/-- The startup call to `load_config` (lines 204–205): a failure
propagates and terminates the process (no surrounding handler). -/
def startupLoad (compile : String → Pattern) (r : Except String Config) :
    Except String LoopState :=
  match r with
  | .error e => .error e
  | .ok c => .ok ⟨c.feeds, c.features, compileBank compile c.features⟩

/-- The per-cycle reload (lines 209–215): on success replace feeds,
features and compiled patterns; on any exception keep the previous
state (`logging.warning("Using previous config ...")`). -/
def reloadStep (compile : String → Pattern) (st : LoopState) (r : Except String Config) :
    LoopState :=
  match r with
  | .ok c => ⟨c.feeds, c.features, compileBank compile c.features⟩
  | .error _ => st

/-! ### Topic matcher (`article_matches`, lines 99–105) -/

/-- The search text: `f"{entry.get('title', '')} {entry.get('summary', '')}"`. -/
def searchText (e : Entry) : String :=
  e.title.getD "" ++ " " ++ e.summary.getD ""

/-- `article_matches`: collect every topic one of whose patterns
matches the search text; return `(bool(hits), hits)`. -/
def article_matches (e : Entry) (feature_patterns : List (String × List Pattern)) :
    Bool × List String :=
  let text := searchText e
  let hits := (feature_patterns.filter (fun kv => kv.2.any (fun p => p text))).map Prod.fst
  (!hits.isEmpty, hits)

/-! ### Link canonicalizer (`original_link`, lines 109–123) -/

/-- Outcome of the external `gnewsdecoder(link, interval=1)` call as
observed by `original_link`: `.ok u` is a result dict with a truthy
`status` and `decoded_url = u`; `.failed msg` is a result dict with a
falsy `status` (the error-logging path); `.exn` is any exception
raised by the call or by the subsequent dict accesses. -/
inductive DecodeOutcome
  | ok (decoded_url : String)
  | failed (message : String)
  | exn
deriving DecidableEq

/-- `original_link`: links not containing `"news.google."` pass
through unchanged; otherwise the decoder's answer is used on success,
and every failure path (falsy status or exception) degrades to the
original link. -/
def original_link (gnewsdecoder : String → DecodeOutcome) (e : Entry) : String :=
  let link := e.link.getD ""
  if strContains link "news.google." then
    match gnewsdecoder link with
    | .ok u => u
    | .failed _ => e.link.getD ""
    | .exn => e.link.getD ""
  else link

/-! ### Startup sink validation (`main`, lines 192–199)

The relevant environment is the sink configuration; missing
environment variables are `none`, and Python truthiness of the string
values is `truthyS`. -/

structure Env where
  USE_SLACK_WEBHOOK : Bool
  USE_GENERIC_WEBHOOK : Bool
  SLACK_WEBHOOK_URL : Option String
  SLACK_BOT_TOKEN : Option String
  SLACK_CHANNEL_ID : Option String
  GENERIC_WEBHOOK_URL : Option String
deriving DecidableEq

/-- The sink flags that survive startup and drive deliveries. -/
structure RunCfg where
  use_slack : Bool
  use_generic : Bool
deriving DecidableEq

/-- Startup validation, lines 192–199: Slack enabled without
credentials only logs a warning and disables the Slack sink; the
generic sink enabled without a URL raises; and ending up with no
usable sink raises.  `.error` is the uncaught `RuntimeError` that
terminates the process; `.ok` carries the resulting sink flags. -/
def startupValidate (env : Env) : Except String RunCfg :=
  let use_slack := env.USE_SLACK_WEBHOOK &&
    (truthyS env.SLACK_WEBHOOK_URL || truthyS env.SLACK_BOT_TOKEN)
  if env.USE_GENERIC_WEBHOOK && !truthyS env.GENERIC_WEBHOOK_URL then
    .error "USE_GENERIC_WEBHOOK=true but GENERIC_WEBHOOK_URL is not set."
  else
    let use_generic := env.USE_GENERIC_WEBHOOK && truthyS env.GENERIC_WEBHOOK_URL
    if !(use_slack || use_generic) then
      .error "No outputs enabled."
    else
      .ok ⟨use_slack, use_generic⟩

/-! ### Delivery and the per-entry pipeline (`main`, lines 227–268) -/

/-- One recorded delivery attempt: which sink, what was sent, and
whether the HTTP call succeeded (the externally determined outcome of
`POST(message)` resp. `post_via_generic_webhook(...)`). -/
inductive Delivery
  | slack (message : String) (ok : Bool)
  | generic (url : String) (keywords : List String) (ok : Bool)
deriving DecidableEq

/-- The Slack message body,
`f"*{title}*\n{link}\n• topics: {', '.join(topics)}"` (line 251). -/
def formatMessage (title link : String) (topics : List String) : String :=
  "*" ++ title ++ "*\n" ++ link ++ "\n• topics: " ++ String.intercalate ", " topics

/-- Lines 242–268: the tail of the per-entry body once the guid and
lookback gates have been passed.  Runs the topic matcher; a non-match
marks the guid seen with no delivery.  A match formats the
notification, attempts each enabled sink (outcomes `slackOk`,
`genericOk`), and adds the guid to `seen` iff at least one attempt
succeeded (`ok`); otherwise the guid is left for the next cycle. -/
def matchAndDeliver (rc : RunCfg) (feature_patterns : List (String × List Pattern))
    (gnewsdecoder : String → DecodeOutcome) (slackOk genericOk : Bool)
    (g : String) (seen : Finset String) (e : Entry) :
    Finset String × List Delivery :=
  let m := article_matches e feature_patterns
  if !m.1 then (insert g seen, [])
  else
    let title := e.title.getD "(no title)"
    let link := original_link gnewsdecoder e
    let message := formatMessage title link m.2
    let attempts :=
      (if rc.use_slack then [Delivery.slack message slackOk] else []) ++
      (if rc.use_generic then [Delivery.generic link m.2 genericOk] else [])
    let ok := (rc.use_slack && slackOk) || (rc.use_generic && genericOk)
    if ok then (insert g seen, attempts) else (seen, attempts)

/-- Lines 227–268: processing of a single feed entry.  Computes the
guid (`id or link`); a falsy guid or an already-seen guid is skipped
with no action.  On a cold-start cycle (`applyLookback`), an entry
with no timestamp, or one strictly older than the threshold, is
marked seen and skipped.  Otherwise the matcher/delivery tail runs. -/
def processEntry (rc : RunCfg) (applyLookback : Bool) (lookbackThreshold : Int)
    (feature_patterns : List (String × List Pattern))
    (gnewsdecoder : String → DecodeOutcome) (slackOk genericOk : Bool)
    (seen : Finset String) (e : Entry) : Finset String × List Delivery :=
  match pyOrStr e.id e.link with
  | none => (seen, [])
  | some g =>
    if g = "" ∨ g ∈ seen then (seen, [])
    else if applyLookback then
      match e.published_parsed.or e.updated_parsed with
      | none => (insert g seen, [])
      | some ts =>
        if ts < lookbackThreshold then (insert g seen, [])
        else matchAndDeliver rc feature_patterns gnewsdecoder slackOk genericOk g seen e
    else matchAndDeliver rc feature_patterns gnewsdecoder slackOk genericOk g seen e

/-- A feed entry together with the external outcomes its delivery
attempts would observe this cycle. -/
structure EntryCtx where
  entry : Entry
  slackOk : Bool
  genericOk : Bool

/-- Lines 227–268 iterated over one fetched feed's entry list,
threading the seen set and accumulating delivery attempts. -/
def runFeed (rc : RunCfg) (applyLookback : Bool) (lookbackThreshold : Int)
    (feature_patterns : List (String × List Pattern))
    (gnewsdecoder : String → DecodeOutcome)
    (acc : Finset String × List Delivery) (entries : List EntryCtx) :
    Finset String × List Delivery :=
  entries.foldl
    (fun acc ec =>
      let r := processEntry rc applyLookback lookbackThreshold feature_patterns
        gnewsdecoder ec.slackOk ec.genericOk acc.1 ec.entry
      (r.1, acc.2 ++ r.2))
    acc

/-- Lines 220–225: one feed of the cycle.  `none` is a feed whose
`fetch_feed` raised: it is logged and skipped, leaving the
accumulator untouched; `some entries` is a fetched feed, processed by
`runFeed`. -/
def cycleStep (rc : RunCfg) (applyLookback : Bool) (lookbackThreshold : Int)
    (feature_patterns : List (String × List Pattern))
    (gnewsdecoder : String → DecodeOutcome)
    (acc : Finset String × List Delivery) :
    Option (List EntryCtx) → Finset String × List Delivery
  | none => acc
  | some entries =>
    runFeed rc applyLookback lookbackThreshold feature_patterns gnewsdecoder acc entries

/-- One polling cycle over the feed list (lines 216–270).
`apply_lookback` is `len(seen) == 0` computed once at cycle start;
the threshold is `time.time() - INITIAL_LOOKBACK_DAYS * 86400`. -/
def runCycle (rc : RunCfg) (gnewsdecoder : String → DecodeOutcome)
    (now lookbackDays : Int) (feature_patterns : List (String × List Pattern))
    (feeds : List (Option (List EntryCtx))) (seen : Finset String) :
    Finset String × List Delivery :=
  feeds.foldl
    (cycleStep rc (seen.card == 0) (now - lookbackDays * 86400) feature_patterns gnewsdecoder)
    (seen, [])

/-! ## Theorems about the embedding -/

/-- C8: saving a seen ledger and loading it back yields exactly the
same set of identifiers, and the persisted form is the list of
identifiers in sorted order. -/
theorem seen_ledger_roundtrip (s : Finset String) :
    load_seen (some (save_seen s)) = s ∧ List.Sorted (· ≤ ·) (save_seen s) := by
  constructor
  · simp [load_seen, save_seen, Finset.sort_toFinset]
  · simp [save_seen, Finset.sort_sorted]

/-- C4: the topic matcher returns exactly the topics one of whose
patterns matches the search text (title and summary joined, missing
fields empty), and the matched flag is true exactly when that topic
list is non-empty. -/
theorem matcher_exact (e : Entry) (bank : List (String × List Pattern)) :
    (∀ t : String,
        t ∈ (article_matches e bank).2 ↔
          ∃ ps, (t, ps) ∈ bank ∧ ∃ p ∈ ps, p (searchText e) = true) ∧
    ((article_matches e bank).1 = true ↔ (article_matches e bank).2 ≠ []) := by
  constructor
  · intro t
    simp only [article_matches, List.mem_map, List.mem_filter, List.any_eq_true]
    constructor
    · rintro ⟨⟨t', ps⟩, ⟨hmem, p, hp, hsearch⟩, rfl⟩
      exact ⟨ps, hmem, p, hp, hsearch⟩
    · rintro ⟨ps, hmem, p, hp, hsearch⟩
      exact ⟨(t, ps), ⟨hmem, p, hp, hsearch⟩, rfl⟩
  · simp [article_matches]

/-- C3: a config load failure at startup propagates (the process
terminates before the first cycle), while a reload failure on a later
cycle leaves the previous feeds, feature bank and compiled patterns
in effect; a successful reload replaces all three wholesale. -/
theorem config_startup_fatal_reload_stale (compile : String → Pattern)
    (st : LoopState) (msg : String) (c : Config) :
    startupLoad compile (Except.error msg) = Except.error msg ∧
    reloadStep compile st (Except.error msg) = st ∧
    reloadStep compile st (Except.ok c) =
      ⟨c.feeds, c.features, compileBank compile c.features⟩ :=
  ⟨rfl, rfl, rfl⟩

/-- C5: link canonicalization is a total function; a link not on the
aggregator domain passes through unchanged, a successful decode
returns the decoded URL, and a reported failure or an internal
exception returns the original link unchanged. -/
theorem canonicalize_total_fallback (dec : String → DecodeOutcome) (e : Entry) :
    (strContains (e.link.getD "") "news.google." = false →
        original_link dec e = e.link.getD "") ∧
    (∀ u, strContains (e.link.getD "") "news.google." = true →
        dec (e.link.getD "") = DecodeOutcome.ok u → original_link dec e = u) ∧
    (∀ msg, strContains (e.link.getD "") "news.google." = true →
        dec (e.link.getD "") = DecodeOutcome.failed msg →
        original_link dec e = e.link.getD "") ∧
    (strContains (e.link.getD "") "news.google." = true →
        dec (e.link.getD "") = DecodeOutcome.exn →
        original_link dec e = e.link.getD "") := by
  refine ⟨fun h => by simp [original_link, h], fun u h hd => ?_,
    fun msg h hd => ?_, fun h hd => ?_⟩ <;> simp [original_link, h, hd]

/-- A decoder that always reports failure (for concrete runs). -/
def decFailEx : String → DecodeOutcome := fun _ => DecodeOutcome.failed "rate limited"

/-- A Google News redirect-style entry (concrete run input). -/
def eGoogle : Entry :=
  ⟨none, some "https://news.google.com/rss/articles/abc", some "t", none, none, none⟩

/-- An entry whose link is not on the aggregator domain. -/
def ePlain : Entry :=
  ⟨none, some "https://example.com/a", some "t", none, none, none⟩

/-- Witness for C5: with a decoder that fails, a redirect-style link
comes back unchanged, and a plain link passes through untouched. -/
theorem canonicalize_total_fallback_witness :
    original_link decFailEx eGoogle = "https://news.google.com/rss/articles/abc" ∧
    original_link decFailEx ePlain = "https://example.com/a" :=
  ⟨(canonicalize_total_fallback decFailEx eGoogle).2.2.1 "rate limited" (by decide) rfl,
   (canonicalize_total_fallback decFailEx ePlain).1 (by decide)⟩

/-- An entry with neither an id nor a link (no identifier can be
formed). -/
def entryNoGuid : Entry := ⟨none, none, some "title", some "body", some 0, none⟩

/-- A decoder standing in for an unreachable decoding service. -/
def decExn : String → DecodeOutcome := fun _ => DecodeOutcome.exn

/-- Counterexample for C6: an entry with neither id nor link is NOT
marked seen: processing it leaves the (empty) seen ledger empty, so
nothing records it and it is re-evaluated on every later cycle.  The
claim says such an entry "is marked seen". -/
theorem no_identifier_not_marked_cex :
    entryNoGuid.id = none ∧ entryNoGuid.link = none ∧
    processEntry ⟨true, true⟩ false 0 [] decExn true true ∅ entryNoGuid =
      (∅, []) :=
  ⟨rfl, rfl, rfl⟩

/-- C6 (amended): an entry whose id and link are both falsy (absent
or empty) is skipped with no matching and no delivery attempt, and
the seen ledger is left completely unchanged — it is not marked seen,
so the same entry is skipped again on every later cycle. -/
theorem no_identifier_skipped (rc : RunCfg) (al : Bool) (thr : Int)
    (bank : List (String × List Pattern)) (dec : String → DecodeOutcome)
    (so go : Bool) (seen : Finset String) (e : Entry)
    (h : truthyS (pyOrStr e.id e.link) = false) :
    processEntry rc al thr bank dec so go seen e = (seen, []) := by
  cases hg : pyOrStr e.id e.link with
  | none => simp [processEntry, hg]
  | some g =>
    rw [hg] at h
    simp only [truthyS, Bool.not_eq_false', beq_iff_eq] at h
    simp [processEntry, hg, h]

/-- Witness for C6 (amended): a guid-less entry leaves a non-empty
ledger untouched and attempts no delivery. -/
theorem no_identifier_skipped_witness :
    processEntry ⟨true, false⟩ true 5 [] decExn false false {"a"} entryNoGuid =
      ({"a"}, []) :=
  no_identifier_skipped ⟨true, false⟩ true 5 [] decExn false false {"a"} entryNoGuid rfl

/-- An environment with the Slack sink enabled but no Slack
credentials, and a configured generic sink. -/
def envSlackNoCreds : Env :=
  { USE_SLACK_WEBHOOK := true, USE_GENERIC_WEBHOOK := true,
    SLACK_WEBHOOK_URL := none, SLACK_BOT_TOKEN := none,
    SLACK_CHANNEL_ID := none,
    GENERIC_WEBHOOK_URL := some "https://hooks.example.com/x" }

/-- Counterexample for C7: the Slack sink is enabled by configuration
and its required settings are missing, yet startup does not abort —
validation succeeds, merely disabling the Slack sink (the code logs a
warning and continues because the generic sink is usable). -/
theorem startup_validation_cex :
    envSlackNoCreds.USE_SLACK_WEBHOOK = true ∧
    envSlackNoCreds.SLACK_WEBHOOK_URL = none ∧
    envSlackNoCreds.SLACK_BOT_TOKEN = none ∧
    startupValidate envSlackNoCreds = Except.ok ⟨false, true⟩ :=
  ⟨rfl, rfl, rfl, rfl⟩

/-- C7 (amended): startup aborts when the generic sink is enabled
without its URL, and when no usable sink remains (Slack unusable or
disabled, generic unusable or disabled); a Slack sink enabled without
credentials is not itself fatal — whenever startup succeeds, the
surviving sink flags are exactly "Slack enabled and credentialed" and
"generic enabled and URL set", and at least one of them holds. -/
theorem startup_validation_amended (env : Env) :
    (env.USE_GENERIC_WEBHOOK = true → truthyS env.GENERIC_WEBHOOK_URL = false →
        ∃ msg, startupValidate env = Except.error msg) ∧
    ((env.USE_SLACK_WEBHOOK &&
        (truthyS env.SLACK_WEBHOOK_URL || truthyS env.SLACK_BOT_TOKEN)) = false →
      (env.USE_GENERIC_WEBHOOK && truthyS env.GENERIC_WEBHOOK_URL) = false →
        ∃ msg, startupValidate env = Except.error msg) ∧
    (∀ rc, startupValidate env = Except.ok rc →
        (rc.use_slack || rc.use_generic) = true ∧
        rc.use_slack = (env.USE_SLACK_WEBHOOK &&
          (truthyS env.SLACK_WEBHOOK_URL || truthyS env.SLACK_BOT_TOKEN)) ∧
        rc.use_generic = (env.USE_GENERIC_WEBHOOK && truthyS env.GENERIC_WEBHOOK_URL)) := by
  refine ⟨fun h1 h2 => ?_, fun hs hg => ?_, fun rc h => ?_⟩
  · exact ⟨"USE_GENERIC_WEBHOOK=true but GENERIC_WEBHOOK_URL is not set.",
      by simp [startupValidate, h1, h2]⟩
  · by_cases hcond : (env.USE_GENERIC_WEBHOOK && !truthyS env.GENERIC_WEBHOOK_URL) = true
    · exact ⟨"USE_GENERIC_WEBHOOK=true but GENERIC_WEBHOOK_URL is not set.",
        by simp [startupValidate, hcond]⟩
    · exact ⟨"No outputs enabled.", by simp [startupValidate, hcond, hs, hg]⟩
  · by_cases hcond : (env.USE_GENERIC_WEBHOOK && !truthyS env.GENERIC_WEBHOOK_URL) = true
    · simp [startupValidate, hcond] at h
    · by_cases husable : ((env.USE_SLACK_WEBHOOK &&
          (truthyS env.SLACK_WEBHOOK_URL || truthyS env.SLACK_BOT_TOKEN)) ||
          (env.USE_GENERIC_WEBHOOK && truthyS env.GENERIC_WEBHOOK_URL)) = true
      · simp only [startupValidate, hcond, Bool.false_eq_true, if_false,
          husable, Bool.not_true, if_true] at h
        cases h
        exact ⟨husable, rfl, rfl⟩
      · simp [startupValidate, hcond, husable] at h

/-- An environment with every sink disabled. -/
def envNoneEnabled : Env :=
  { USE_SLACK_WEBHOOK := false, USE_GENERIC_WEBHOOK := false,
    SLACK_WEBHOOK_URL := none, SLACK_BOT_TOKEN := none,
    SLACK_CHANNEL_ID := none, GENERIC_WEBHOOK_URL := none }

/-- Witness for C7 (amended): with no sink enabled, startup fails
with an error (the process aborts). -/
theorem startup_validation_amended_witness :
    ∃ msg, startupValidate envNoneEnabled = Except.error msg :=
  (startup_validation_amended envNoneEnabled).2.1 rfl rfl

/-- An entry with an empty-string id and a non-empty link. -/
def entryEmptyId : Entry :=
  ⟨some "", some "https://example.com/story", some "t", some "s", none, none⟩

/-- C10: the identifier falls back to the link whenever the id is
falsy (absent or the empty string): such an entry has a truthy
identifier equal to its link, and is deduplicated by that link — if
the link is already in the seen ledger the entry is skipped with no
action. -/
theorem guid_falsy_id_link_fallback (rc : RunCfg) (al : Bool) (thr : Int)
    (bank : List (String × List Pattern)) (dec : String → DecodeOutcome)
    (so go : Bool) (seen : Finset String) (e : Entry) (l : String)
    (hid : e.id = some "" ∨ e.id = none) (hlink : e.link = some l) (hl : l ≠ "") :
    pyOrStr e.id e.link = some l ∧ truthyS (pyOrStr e.id e.link) = true ∧
    (l ∈ seen → processEntry rc al thr bank dec so go seen e = (seen, [])) := by
  have hguid : pyOrStr e.id e.link = some l := by
    rcases hid with hid | hid <;> simp [pyOrStr, hid, hlink]
  refine ⟨hguid, by simp [truthyS, hguid, hl], fun hmem => ?_⟩
  simp [processEntry, hguid, hmem]

/-- Witness for C10: an entry with id "" and a link already in the
ledger is skipped — deduplicated by its link. -/
theorem guid_falsy_id_link_fallback_witness :
    pyOrStr entryEmptyId.id entryEmptyId.link = some "https://example.com/story" ∧
    processEntry ⟨true, true⟩ false 0 [] decExn true true
      {"https://example.com/story"} entryEmptyId =
      ({"https://example.com/story"}, []) := by
  have h := guid_falsy_id_link_fallback ⟨true, true⟩ false 0 [] decExn true true
    {"https://example.com/story"} entryEmptyId "https://example.com/story"
    (Or.inl rfl) rfl (by decide)
  exact ⟨h.1, h.2.2 (by decide)⟩

/-- The matcher/delivery tail never removes identifiers from the
seen set: every branch returns the set unchanged or with the guid
inserted. -/
theorem matchAndDeliver_seen_mono (rc : RunCfg)
    (bank : List (String × List Pattern)) (dec : String → DecodeOutcome)
    (so go : Bool) (g : String) (seen : Finset String) (e : Entry) :
    seen ⊆ (matchAndDeliver rc bank dec so go g seen e).1 := by
  unfold matchAndDeliver
  dsimp only
  repeat' split
  all_goals first
    | exact Finset.Subset.refl _
    | exact Finset.subset_insert _ _

/-- Processing one entry never removes identifiers from the seen
set. -/
theorem processEntry_seen_mono (rc : RunCfg) (al : Bool) (thr : Int)
    (bank : List (String × List Pattern)) (dec : String → DecodeOutcome)
    (so go : Bool) (seen : Finset String) (e : Entry) :
    seen ⊆ (processEntry rc al thr bank dec so go seen e).1 := by
  unfold processEntry
  repeat' split
  all_goals first
    | exact Finset.Subset.refl _
    | exact Finset.subset_insert _ _
    | apply matchAndDeliver_seen_mono

/-- Running a feed never removes identifiers from the seen set. -/
theorem runFeed_seen_mono (rc : RunCfg) (al : Bool) (thr : Int)
    (bank : List (String × List Pattern)) (dec : String → DecodeOutcome)
    (entries : List EntryCtx) :
    ∀ acc : Finset String × List Delivery,
      acc.1 ⊆ (runFeed rc al thr bank dec acc entries).1 := by
  induction entries with
  | nil => exact fun acc => Finset.Subset.refl _
  | cons ec rest ih =>
    intro acc
    simp only [runFeed, List.foldl_cons] at ih ⊢
    exact Finset.Subset.trans
      (processEntry_seen_mono rc al thr bank dec ec.slackOk ec.genericOk acc.1 ec.entry)
      (ih ((processEntry rc al thr bank dec ec.slackOk ec.genericOk acc.1 ec.entry).1,
        acc.2 ++ (processEntry rc al thr bank dec ec.slackOk ec.genericOk acc.1 ec.entry).2))

/-- A whole cycle never removes identifiers from the seen set. -/
theorem runCycle_seen_mono (rc : RunCfg) (dec : String → DecodeOutcome)
    (now D : Int) (bank : List (String × List Pattern))
    (feeds : List (Option (List EntryCtx))) (seen : Finset String) :
    seen ⊆ (runCycle rc dec now D bank feeds seen).1 := by
  suffices h : ∀ acc : Finset String × List Delivery,
      acc.1 ⊆ (feeds.foldl
        (cycleStep rc (seen.card == 0) (now - D * 86400) bank dec) acc).1 by
    exact h (seen, [])
  induction feeds with
  | nil => exact fun acc => Finset.Subset.refl _
  | cons f rest ih =>
    intro acc
    simp only [List.foldl_cons]
    cases f with
    | none => exact ih acc
    | some entries =>
      exact Finset.Subset.trans
        (runFeed_seen_mono rc (seen.card == 0) (now - D * 86400) bank dec entries acc)
        (ih _)

/-- C9: an entry whose identifier is already in the seen ledger is
skipped with zero delivery attempts and the ledger unchanged; and
across any whole cycle the identifier stays present in the ledger. -/
theorem dedup_idempotent (rc : RunCfg) (al : Bool) (thr : Int)
    (bank : List (String × List Pattern)) (dec : String → DecodeOutcome)
    (so go : Bool) (seen : Finset String) (e : Entry) (g : String)
    (hg : pyOrStr e.id e.link = some g) (hin : g ∈ seen) :
    processEntry rc al thr bank dec so go seen e = (seen, []) ∧
    ∀ now D feeds, g ∈ (runCycle rc dec now D bank feeds seen).1 := by
  refine ⟨by simp [processEntry, hg, hin], fun now D feeds => ?_⟩
  exact runCycle_seen_mono rc dec now D bank feeds seen hin

/-- An entry whose id is already recorded in the ledger used below. -/
def entrySeenX : Entry :=
  ⟨some "x", some "https://example.com/x", some "ALPR", some "s", none, none⟩

/-- Witness for C9: the already-seen entry produces no attempts and
leaves the ledger as it was, and its identifier survives a cycle. -/
theorem dedup_idempotent_witness :
    processEntry ⟨true, true⟩ false 0 [] decExn true true {"x"} entrySeenX =
      ({"x"}, []) ∧
    "x" ∈ (runCycle ⟨true, true⟩ decExn 1000 3 [] [] {"x"}).1 := by
  have h := dedup_idempotent ⟨true, true⟩ false 0 [] decExn true true {"x"}
    entrySeenX "x" (by decide) (by decide)
  exact ⟨h.1, h.2 1000 3 []⟩

/-- C1: for a matched entry with both sinks enabled that reaches the
delivery stage, the identifier lands in the seen ledger iff at least
one sink delivery succeeded: with both failing the ledger is
unchanged (retry next cycle); with any success the guid is inserted;
and exactly one attempt per enabled sink is recorded. -/
theorem partial_delivery_policy (bank : List (String × List Pattern))
    (dec : String → DecodeOutcome) (so go : Bool) (g : String)
    (seen : Finset String) (e : Entry) (al : Bool) (thr : Int)
    (hg : pyOrStr e.id e.link = some g) (hne : g ≠ "") (hnin : g ∉ seen)
    (hts : al = true →
      ∃ ts, e.published_parsed.or e.updated_parsed = some ts ∧ ¬ ts < thr)
    (hmatch : (article_matches e bank).1 = true) :
    (g ∈ (processEntry ⟨true, true⟩ al thr bank dec so go seen e).1 ↔
      (so || go) = true) ∧
    ((so || go) = false →
      (processEntry ⟨true, true⟩ al thr bank dec so go seen e).1 = seen) ∧
    ((so || go) = true →
      (processEntry ⟨true, true⟩ al thr bank dec so go seen e).1 = insert g seen) ∧
    (processEntry ⟨true, true⟩ al thr bank dec so go seen e).2 =
      [Delivery.slack (formatMessage (e.title.getD "(no title)")
          (original_link dec e) (article_matches e bank).2) so,
       Delivery.generic (original_link dec e) (article_matches e bank).2 go] := by
  have hpe : processEntry ⟨true, true⟩ al thr bank dec so go seen e =
      matchAndDeliver ⟨true, true⟩ bank dec so go g seen e := by
    cases al with
    | false => simp [processEntry, hg, hne, hnin]
    | true =>
      obtain ⟨ts, h1, h2⟩ := hts rfl
      simp [processEntry, hg, hne, hnin, h1, h2]
  rw [hpe]
  cases so <;> cases go <;>
    simp [matchAndDeliver, hmatch, hnin, Finset.mem_insert]

/-- A bank with one topic whose pattern looks for "ALPR". -/
def bankALPR : List (String × List Pattern) :=
  [("alpr", [fun s => strContains s "ALPR"])]

/-- A fresh matching entry (concrete run input). -/
def entryALPR : Entry :=
  ⟨some "guid1", some "https://example.com/alpr",
   some "ALPR cameras deployed downtown", some "report", none, none⟩

/-- Witness for C1: Slack failing and the generic sink succeeding,
the guid is added; with both failing it is not. -/
theorem partial_delivery_policy_witness :
    (processEntry ⟨true, true⟩ false 0 bankALPR decExn false true ∅ entryALPR).1 =
      insert "guid1" ∅ ∧
    (processEntry ⟨true, true⟩ false 0 bankALPR decExn false false ∅ entryALPR).1 =
      (∅ : Finset String) := by
  have h1 := partial_delivery_policy bankALPR decExn false true "guid1" ∅ entryALPR
    false 0 (by decide) (by decide) (by decide) (by simp) (by decide)
  have h2 := partial_delivery_policy bankALPR decExn false false "guid1" ∅ entryALPR
    false 0 (by decide) (by decide) (by decide) (by simp) (by decide)
  exact ⟨h1.2.2.1 rfl, h2.2.1 rfl⟩

/-- C2: on a cold-start cycle the lookback gate marks seen and skips
an entry with no timestamp, marks seen and skips an entry strictly
older than the threshold, and hands anything younger to the matcher;
with the gate off (non-empty ledger) every entry goes straight to the
matcher.  A cycle applies the gate exactly when the ledger it starts
from is empty, with threshold now − days·86400. -/
theorem lookback_gate (rc : RunCfg) (bank : List (String × List Pattern))
    (dec : String → DecodeOutcome) (so go : Bool) (thr : Int)
    (g : String) (seen : Finset String) (e : Entry)
    (hg : pyOrStr e.id e.link = some g) (hne : g ≠ "") (hnin : g ∉ seen) :
    ((e.published_parsed.or e.updated_parsed = none →
        processEntry rc true thr bank dec so go seen e = (insert g seen, [])) ∧
     (∀ ts, e.published_parsed.or e.updated_parsed = some ts → ts < thr →
        processEntry rc true thr bank dec so go seen e = (insert g seen, [])) ∧
     (∀ ts, e.published_parsed.or e.updated_parsed = some ts → ¬ ts < thr →
        processEntry rc true thr bank dec so go seen e =
          matchAndDeliver rc bank dec so go g seen e) ∧
     (processEntry rc false thr bank dec so go seen e =
        matchAndDeliver rc bank dec so go g seen e)) ∧
    ((seen ≠ ∅ → (seen.card == 0) = false) ∧
     ∀ now D ec, runCycle rc dec now D bank [some [ec]] seen =
        processEntry rc (seen.card == 0) (now - D * 86400) bank dec
          ec.slackOk ec.genericOk seen ec.entry) := by
  refine ⟨⟨fun hts => ?_, fun ts hts hlt => ?_, fun ts hts hge => ?_, ?_⟩,
    fun hne2 => ?_, fun now D ec => ?_⟩
  · simp [processEntry, hg, hne, hnin, hts]
  · simp [processEntry, hg, hne, hnin, hts, hlt]
  · simp [processEntry, hg, hne, hnin, hts, hge]
  · simp [processEntry, hg, hne, hnin]
  · simpa [Finset.card_eq_zero] using hne2
  · simp [runCycle, cycleStep, runFeed]

/-- A cold-start entry timestamped at epoch 0 (concrete run input). -/
def entryOld : Entry :=
  ⟨some "old", some "https://example.com/old", some "t", some "s", some 0, none⟩

/-- Witness for C2: with an empty ledger and threshold 100, the entry
timestamped 0 is marked seen and skipped without delivery. -/
theorem lookback_gate_witness :
    processEntry ⟨true, true⟩ true 100 [] decExn true true ∅ entryOld =
      (insert "old" ∅, []) := by
  have h := lookback_gate ⟨true, true⟩ [] decExn true true 100 "old" ∅ entryOld
    (by decide) (by decide) (by decide)
  exact h.1.2.1 0 rfl (by decide)

end Newsstand
